import Mathlib

/-!
Verification of `resource_management/libraries/execution_command/execution_command.py`
(Apache Ambari).

The command document (`command.json`) is a JSON-like tree; we embed it as the
inductive type `Json` below (null, booleans, integers, strings, sequences,
mappings).  The central code is the private method `ExecutionCommand.__get_value`,
a slash-separated-path lookup over that tree with a default value and a
catch-all `except:` clause; we embed it as a total function by making the
Python exception explicit in an `Except Unit` result and then applying the
catch (`catchDefault`).

Python-semantics details embedded faithfully:
* `key.split('/')` followed by `filter(None, ...)` keeps exactly the nonempty
  runs between `/` characters (`splitKey`);
* `sub_key in value` is key membership for a dict, element membership for a
  list, substring test for a string, and a `TypeError` for every other value
  (`isMember`);
* `value[sub_key]` with a string subscript succeeds only on a dict and raises
  a `TypeError` otherwise (`indexJson`);
* `value == None` is true exactly on the null value (`Json.isNull`), and a
  string compares equal to a list element exactly when the element is that
  string (`Json.strEq`);
* `if value == None: value = default_value` substitutes the default as soon
  as a traversed value is null, and the loop then continues from the default;
* the surrounding bare `except:` turns any raised error into `default_value`.
-/

set_option autoImplicit false

/-- JSON-like values of the command document: null, booleans, integers,
strings, sequences and mappings (association lists, first key wins). -/
inductive Json where
  | null
  | bool (b : Bool)
  | num (n : Int)
  | str (s : String)
  | arr (xs : List Json)
  | obj (kvs : List (String × Json))
deriving Repr

namespace Json

/-- Is this value a mapping? -/
def isObj : Json → Bool
  | .obj _ => true
  | _ => false

/-- Python `value == None`: true exactly on the null value. -/
def isNull : Json → Bool
  | .null => true
  | _ => false

/-- Python `element == sub_key` for a string `sub_key`: true exactly when the
element is that string. -/
def strEq : Json → String → Bool
  | .str s, k => s = k
  | _, _ => false

end Json

/-- The runs of non-`/` characters of a character list, in order, empty runs
included: this is what `key.split('/')` produces. -/
def splitRuns : List Char → List (List Char)
  | [] => [[]]
  | c :: cs =>
    match splitRuns cs with
    | [] => [[]]
    | r :: rs => if c = '/' then [] :: r :: rs else (c :: r) :: rs

/-- `filter(None, key.split('/'))`: the nonempty slash-separated segments. -/
def splitKey (key : String) : List String :=
  ((splitRuns key.toList).filter (fun r => r ≠ [])).map (fun r => String.mk r)

/-- `k` is a prefix of `s`, on character lists. -/
def isPrefixB : List Char → List Char → Bool
  | [], _ => true
  | _ :: _, [] => false
  | a :: as, b :: bs => a = b && isPrefixB as bs

/-- `k` occurs as a contiguous substring (Python `k in s` on strings). -/
def isInfixB (k : List Char) : List Char → Bool
  | [] => isPrefixB k []
  | b :: bs => isPrefixB k (b :: bs) || isInfixB k bs

/-- Python `sub_key in value` for a string subscript `sub_key`:
key membership on a dict, element membership on a list, substring test on a
string, and a `TypeError` (here `Except.error ()`) on every other value. -/
def isMember (sub_key : String) (value : Json) : Except Unit Bool :=
  match value with
  | Json.obj kvs => Except.ok (kvs.any (fun kv => kv.1 = sub_key))
  | Json.arr xs => Except.ok (xs.any (fun x => x.strEq sub_key))
  | Json.str s => Except.ok (isInfixB sub_key.toList s.toList)
  | _ => Except.error ()

/-- Python `value[sub_key]` for a string subscript: dict lookup (first
matching key) on a dict, a `TypeError` on every other value. -/
def indexJson (value : Json) (sub_key : String) : Except Unit Json :=
  match value with
  | Json.obj kvs =>
    match kvs.find? (fun kv => kv.1 = sub_key) with
    | some kv => Except.ok kv.2
    | none => Except.error ()
  | _ => Except.error ()

/-- The `for sub_key in sub_keys` loop of `ExecutionCommand.__get_value`, with
the Python exceptions explicit: `if not sub_key in value: return default_value`,
`value = value[sub_key]`, `if value == None: value = default_value`. -/
def getValueLoop (default_value : Json) : Json → List String → Except Unit Json
  | value, [] => Except.ok value
  | value, sub_key :: rest =>
    match isMember sub_key value with
    | Except.error e => Except.error e
    | Except.ok mem =>
      if mem then
        match indexJson value sub_key with
        | Except.error e => Except.error e
        | Except.ok v =>
          getValueLoop default_value (if v.isNull then default_value else v) rest
      else Except.ok default_value

/-- The bare `except: return default_value` wrapper. -/
def catchDefault (e : Except Unit Json) (default_value : Json) : Json :=
  match e with
  | Except.ok v => v
  | Except.error _ => default_value

/-- The pure value computed by `ExecutionCommand.__get_value(key, default_value)`
on the document `command`. -/
def lookupValue (command : Json) (key : String) (default_value : Json) : Json :=
  catchDefault (getValueLoop default_value command (splitKey key)) default_value

/-- Decimal digit-string value: `none` unless the characters are one or more
decimal digits. -/
def parseDigits (cs : List Char) : Option Nat :=
  if cs = [] then none
  else cs.foldl
    (fun acc c =>
      acc.bind (fun n => if c.isDigit then some (n * 10 + (c.toNat - 48)) else none))
    (some 0)

/-- Python `int(s)` on a string: surrounding whitespace stripped, an optional
single sign, then one or more decimal digits; anything else is a
`ValueError`. -/
def pyStrToInt (s : String) : Except Unit Int :=
  let cs :=
    ((s.toList.dropWhile (fun c => c.isWhitespace)).reverse.dropWhile
      (fun c => c.isWhitespace)).reverse
  match cs with
  | '-' :: rest =>
    match parseDigits rest with
    | some n => Except.ok (-(n : Int))
    | none => Except.error ()
  | '+' :: rest =>
    match parseDigits rest with
    | some n => Except.ok ((n : Int))
    | none => Except.error ()
  | _ =>
    match parseDigits cs with
    | some n => Except.ok ((n : Int))
    | none => Except.error ()

/-- Python `int(value)` on a command-document value: integers pass through,
booleans map to 0/1, strings are parsed by `pyStrToInt`; `None`, lists and
dicts raise a `TypeError`. -/
def pyInt (v : Json) : Except Unit Int :=
  match v with
  | Json.num n => Except.ok n
  | Json.bool b => Except.ok (if b then 1 else 0)
  | Json.str s => pyStrToInt s
  | _ => Except.error ()

/-- Strict presence lookup used by the spec model of `expect_v2`: walk the
segments through mappings only; an explicitly null or missing value, or a
non-mapping intermediate, counts as absent. -/
def getValueOpt : Json → List String → Option Json
  | v, [] => if v.isNull then none else some v
  | Json.obj kvs, k :: rest =>
    match kvs.find? (fun kv => kv.1 = k) with
    | some kv => getValueOpt kv.2 rest
    | none => none
  | _, _ :: _ => none

/-- Modelled from the spec: `expect_v2(path, int, default)` from
`resource_management.libraries.functions.expect` is not under `src/`.  Per the
spec's error taxonomy: an absent field is not an error and yields the declared
default (`None` when no default is supplied); a present value is coerced to an
integer; coercion failure with no default is surfaced as an error to the
caller, and coercion failure with a default is suppressed, the default being
returned. -/
def expect_v2 (command : Json) (path : String) (default : Option Int) :
    Except Unit Json :=
  match getValueOpt command (splitKey path) with
  | none =>
    Except.ok (match default with
      | some n => Json.num n
      | none => Json.null)
  | some v =>
    match pyInt v with
    | Except.ok n => Except.ok (Json.num n)
    | Except.error _ =>
      match default with
      | some n => Except.ok (Json.num n)
      | none => Except.error ()

/-- Modelled from the spec: the `ModuleConfigs` collaborator
(`resource_management.libraries.execution_command.module_configs`) is not
under `src/`; per the spec it is constructed by handing it the
`configurations` and `configurationAttributes` subtrees unmodified. -/
structure ModuleConfigs where
  module_configs : Json
  module_config_attributes : Json

/-- The `ExecutionCommand` object: `__execution_command` holds the command
document, `__module_configs` the eagerly built configuration view. -/
structure ExecutionCommand where
  execution_command : Json
  module_configs : ModuleConfigs

namespace ExecutionCommand

/-- `__init__`: store the command and build the `ModuleConfigs` view from
`__get_value("configurations")` and `__get_value("configurationAttributes")`. -/
def init (command : Json) : ExecutionCommand :=
  ⟨command,
    ⟨lookupValue command "configurations" Json.null,
      lookupValue command "configurationAttributes" Json.null⟩⟩

/-- The private method `__get_value(key, default_value)` in state-passing
form: the method reads `self.__execution_command` and never assigns to any
attribute, so the state component is returned unchanged.  Python's
`default_value=None` default argument is passed explicitly at each call
site. -/
def get_value_priv (self : ExecutionCommand) (key : String)
    (default_value : Json) : Json × ExecutionCommand :=
  (lookupValue self.execution_command key default_value, self)

/-- `get_value(query_string, default_value)`. -/
def get_value (self : ExecutionCommand) (query_string : String)
    (default_value : Json) : Json × ExecutionCommand :=
  self.get_value_priv query_string default_value

/-- `get_module_configs()`. -/
def get_module_configs (self : ExecutionCommand) :
    ModuleConfigs × ExecutionCommand :=
  (self.module_configs, self)

/-- `get_module_name()`. -/
def get_module_name (self : ExecutionCommand) : Json × ExecutionCommand :=
  self.get_value_priv "serviceName" Json.null

/-- `get_component_type()`. -/
def get_component_type (self : ExecutionCommand) : Json × ExecutionCommand :=
  self.get_value_priv "role" Json.null

/-- `get_component_instance_name()`: hardcoded `'default'`. -/
def get_component_instance_name (self : ExecutionCommand) :
    Json × ExecutionCommand :=
  (Json.str "default", self)

/-- `get_servicegroup_name()`. -/
def get_servicegroup_name (self : ExecutionCommand) : Json × ExecutionCommand :=
  self.get_value_priv "serviceGroupName" Json.null

/-- `get_cluster_name()`. -/
def get_cluster_name (self : ExecutionCommand) : Json × ExecutionCommand :=
  self.get_value_priv "clusterName" Json.null

/-- `get_repository_file()`. -/
def get_repository_file (self : ExecutionCommand) : Json × ExecutionCommand :=
  self.get_value_priv "repositoryFile" Json.null

/-- `get_local_components()`. -/
def get_local_components (self : ExecutionCommand) : Json × ExecutionCommand :=
  self.get_value_priv "localComponents" (Json.arr [])

/-- `get_jdk_location()`. -/
def get_jdk_location (self : ExecutionCommand) : Json × ExecutionCommand :=
  self.get_value_priv "ambariLevelParams/jdk_location" Json.null

/-- `get_jdk_name()`. -/
def get_jdk_name (self : ExecutionCommand) : Json × ExecutionCommand :=
  self.get_value_priv "ambariLevelParams/jdk_name" Json.null

/-- `get_java_home()`. -/
def get_java_home (self : ExecutionCommand) : Json × ExecutionCommand :=
  self.get_value_priv "ambariLevelParams/java_home" Json.null

/-- `get_java_version()`: `expect_v2("ambariLevelParams/java_version", int)`,
no default supplied. -/
def get_java_version (self : ExecutionCommand) :
    Except Unit Json × ExecutionCommand :=
  (expect_v2 self.execution_command "ambariLevelParams/java_version" none, self)

/-- `get_jce_name()`. -/
def get_jce_name (self : ExecutionCommand) : Json × ExecutionCommand :=
  self.get_value_priv "ambariLevelParams/jce_name" Json.null

/-- `get_db_driver_file_name()`. -/
def get_db_driver_file_name (self : ExecutionCommand) :
    Json × ExecutionCommand :=
  self.get_value_priv "ambariLevelParams/db_driver_filename" Json.null

/-- `get_db_name()`. -/
def get_db_name (self : ExecutionCommand) : Json × ExecutionCommand :=
  self.get_value_priv "ambariLevelParams/db_name" Json.null

/-- `get_oracle_jdbc_url()`. -/
def get_oracle_jdbc_url (self : ExecutionCommand) : Json × ExecutionCommand :=
  self.get_value_priv "ambariLevelParams/oracle_jdbc_url" Json.null

/-- `get_mysql_jdbc_url()`. -/
def get_mysql_jdbc_url (self : ExecutionCommand) : Json × ExecutionCommand :=
  self.get_value_priv "ambariLevelParams/mysql_jdbc_url" Json.null

/-- `get_agent_stack_retry_count()`:
`expect_v2("ambariLevelParams/agent_stack_retry_count", int, 5)`. -/
def get_agent_stack_retry_count (self : ExecutionCommand) :
    Except Unit Json × ExecutionCommand :=
  (expect_v2 self.execution_command "ambariLevelParams/agent_stack_retry_count"
    (some 5), self)

/-- `check_agent_stack_want_retry_on_unavailability()`. -/
def check_agent_stack_want_retry_on_unavailability (self : ExecutionCommand) :
    Json × ExecutionCommand :=
  self.get_value_priv "ambariLevelParams/agent_stack_retry_on_unavailability"
    Json.null

/-- `get_ambari_server_host()`. -/
def get_ambari_server_host (self : ExecutionCommand) : Json × ExecutionCommand :=
  self.get_value_priv "ambariLevelParams/ambari_server_host" Json.null

/-- `get_ambari_server_port()`. -/
def get_ambari_server_port (self : ExecutionCommand) : Json × ExecutionCommand :=
  self.get_value_priv "ambariLevelParams/ambari_server_port" Json.null

/-- `is_ambari_server_use_ssl()`. -/
def is_ambari_server_use_ssl (self : ExecutionCommand) : Json × ExecutionCommand :=
  self.get_value_priv "ambariLevelParams/ambari_server_use_ssl"
    (Json.bool false)

/-- `is_host_system_prepared()`. -/
def is_host_system_prepared (self : ExecutionCommand) : Json × ExecutionCommand :=
  self.get_value_priv "ambariLevelParams/host_sys_prepped" (Json.bool false)

/-- `is_gpl_license_accepted()`. -/
def is_gpl_license_accepted (self : ExecutionCommand) : Json × ExecutionCommand :=
  self.get_value_priv "ambariLevelParams/gpl_license_accepted" (Json.bool false)

/-- `get_mpack_name()`. -/
def get_mpack_name (self : ExecutionCommand) : Json × ExecutionCommand :=
  self.get_value_priv "stackSettings/stack_name" Json.null

/-- `get_mpack_version()`. -/
def get_mpack_version (self : ExecutionCommand) : Json × ExecutionCommand :=
  self.get_value_priv "stackSettings/stack_version" Json.null

/-- `get_user_groups()`. -/
def get_user_groups (self : ExecutionCommand) : Json × ExecutionCommand :=
  self.get_value_priv "stackSettings/user_groups" Json.null

/-- `get_group_list()`. -/
def get_group_list (self : ExecutionCommand) : Json × ExecutionCommand :=
  self.get_value_priv "stackSettings/group_list" Json.null

/-- `get_user_list()`. -/
def get_user_list (self : ExecutionCommand) : Json × ExecutionCommand :=
  self.get_value_priv "stackSettings/user_list" Json.null

/-- `get_host_name()`. -/
def get_host_name (self : ExecutionCommand) : Json × ExecutionCommand :=
  self.get_value_priv "agentLevelParams/hostname" Json.null

/-- `check_agent_config_execute_in_parallel()`: note that the Python source
applies `int(...)` to the result of
`__get_value("agentConfigParams/agent/parallel_execution", 0)`, outside the
lookup's own exception handling, so the `int` coercion can raise. -/
def check_agent_config_execute_in_parallel (self : ExecutionCommand) :
    Except Unit Int × ExecutionCommand :=
  (pyInt (lookupValue self.execution_command
    "agentConfigParams/agent/parallel_execution" (Json.num 0)), self)

/-- `get_agent_cache_dir()`. -/
def get_agent_cache_dir (self : ExecutionCommand) : Json × ExecutionCommand :=
  self.get_value_priv "agentLevelParams/agentCacheDir" Json.null

/-- `get_repo_info()`. -/
def get_repo_info (self : ExecutionCommand) : Json × ExecutionCommand :=
  self.get_value_priv "hostLevelParams/repoInfo" Json.null

/-- `get_service_repo_info()`. -/
def get_service_repo_info (self : ExecutionCommand) : Json × ExecutionCommand :=
  self.get_value_priv "hostLevelParams/service_repo_info" Json.null

/-- `check_unlimited_key_jce_required()`. -/
def check_unlimited_key_jce_required (self : ExecutionCommand) :
    Json × ExecutionCommand :=
  self.get_value_priv "componentLevelParams/unlimited_key_jce_required"
    (Json.bool false)

/-- `get_new_mpack_version_for_upgrade()`. -/
def get_new_mpack_version_for_upgrade (self : ExecutionCommand) :
    Json × ExecutionCommand :=
  self.get_value_priv "commandParams/version" Json.null

/-- `check_command_retry_enabled()`. -/
def check_command_retry_enabled (self : ExecutionCommand) :
    Json × ExecutionCommand :=
  self.get_value_priv "commandParams/command_retry_enabled" (Json.bool false)

/-- `check_upgrade_direction()`. -/
def check_upgrade_direction (self : ExecutionCommand) : Json × ExecutionCommand :=
  self.get_value_priv "commandParams/upgrade_direction" Json.null

/-- `get_upgrade_type()`. -/
def get_upgrade_type (self : ExecutionCommand) : Json × ExecutionCommand :=
  self.get_value_priv "commandParams/upgrade_type" (Json.str "")

/-- `is_rolling_restart_in_upgrade()`. -/
def is_rolling_restart_in_upgrade (self : ExecutionCommand) :
    Json × ExecutionCommand :=
  self.get_value_priv "commandParams/rolling_restart" (Json.bool false)

/-- `is_update_files_only()`. -/
def is_update_files_only (self : ExecutionCommand) : Json × ExecutionCommand :=
  self.get_value_priv "commandParams/update_files_only" (Json.bool false)

/-- `get_deploy_phase()`. -/
def get_deploy_phase (self : ExecutionCommand) : Json × ExecutionCommand :=
  self.get_value_priv "commandParams/phase" Json.null

/-- `get_dfs_type()`. -/
def get_dfs_type (self : ExecutionCommand) : Json × ExecutionCommand :=
  self.get_value_priv "commandParams/dfs_type" Json.null

/-- `get_module_package_folder()`. -/
def get_module_package_folder (self : ExecutionCommand) :
    Json × ExecutionCommand :=
  self.get_value_priv "commandParams/service_package_folder" Json.null

/-- `get_ambari_java_home()`. -/
def get_ambari_java_home (self : ExecutionCommand) : Json × ExecutionCommand :=
  self.get_value_priv "commandParams/ambari_java_home" Json.null

/-- `get_ambari_java_name()`. -/
def get_ambari_java_name (self : ExecutionCommand) : Json × ExecutionCommand :=
  self.get_value_priv "commandParams/ambari_java_name" Json.null

/-- `get_ambari_jce_name()`. -/
def get_ambari_jce_name (self : ExecutionCommand) : Json × ExecutionCommand :=
  self.get_value_priv "commandParams/ambari_jce_name" Json.null

/-- `get_ambari_jdk_name()`. -/
def get_ambari_jdk_name (self : ExecutionCommand) : Json × ExecutionCommand :=
  self.get_value_priv "commandParams/ambari_jdk_name" Json.null

/-- `need_refresh_topology()`. -/
def need_refresh_topology (self : ExecutionCommand) : Json × ExecutionCommand :=
  self.get_value_priv "commandParams/refresh_topology" (Json.bool false)

/-- `check_only_update_files()`. -/
def check_only_update_files (self : ExecutionCommand) : Json × ExecutionCommand :=
  self.get_value_priv "commandParams/update_files_only" (Json.bool false)

/-- `get_desired_namenode_role()`. -/
def get_desired_namenode_role (self : ExecutionCommand) :
    Json × ExecutionCommand :=
  self.get_value_priv "commandParams/desired_namenode_role" Json.null

/-- `get_node(type)`: `key = "commandParams/" + type + "node"`. -/
def get_node (self : ExecutionCommand) (type : String) :
    Json × ExecutionCommand :=
  let key := "commandParams/" ++ type ++ "node"
  self.get_value_priv key Json.null

/-- `is_upgrade_suspended()`. -/
def is_upgrade_suspended (self : ExecutionCommand) : Json × ExecutionCommand :=
  self.get_value_priv "roleParams/upgrade_suspended" (Json.bool false)

/-- `get_component_hosts(component_name)`: the key is
`"clusterHostInfo/" + component_name + "_hosts"`, except that for
`"oozie_server"` it is reassigned to the bare
`"clusterHostInfo/" + component_name`. -/
def get_component_hosts (self : ExecutionCommand) (component_name : String) :
    Json × ExecutionCommand :=
  let key := "clusterHostInfo/" ++ component_name ++ "_hosts"
  let key := if component_name = "oozie_server"
    then "clusterHostInfo/" ++ component_name else key
  self.get_value_priv key (Json.arr [])

/-- `get_component_host(component_name)`. -/
def get_component_host (self : ExecutionCommand) (component_name : String) :
    Json × ExecutionCommand :=
  let key := "clusterHostInfo/" ++ component_name ++ "_host"
  self.get_value_priv key (Json.arr [])

/-- `get_all_hosts()`. -/
def get_all_hosts (self : ExecutionCommand) : Json × ExecutionCommand :=
  self.get_value_priv "clusterHostInfo/all_hosts" (Json.arr [])

/-- `get_all_racks()`. -/
def get_all_racks (self : ExecutionCommand) : Json × ExecutionCommand :=
  self.get_value_priv "clusterHostInfo/all_racks" (Json.arr [])

/-- `get_all_ipv4_ips()`. -/
def get_all_ipv4_ips (self : ExecutionCommand) : Json × ExecutionCommand :=
  self.get_value_priv "clusterHostInfo/all_ipv4_ips" (Json.arr [])

end ExecutionCommand

/-- The path is absent from the document in the strict sense: the walk along
the segments passes only through mappings whose entry for the segment is
non-null, until some segment is not a key of the mapping reached at that
step. -/
def absentIn : Json → List String → Bool
  | _, [] => false
  | Json.obj kvs, k :: rest =>
    match kvs.find? (fun kv => kv.1 = k) with
    | some kv => absentIn kv.2 rest
    | none => true
  | _, _ :: _ => false

/-- A traversed intermediate node is a scalar (or sequence) rather than a
mapping: the walk along the segments passes through mappings whose entry for
the segment is non-null, until, with at least one segment still to process,
it reaches a value that is neither a mapping nor null. -/
def scalarMidTraversal : Json → List String → Bool
  | _, [] => false
  | Json.obj kvs, k :: rest =>
    match kvs.find? (fun kv => kv.1 = k) with
    | some kv => scalarMidTraversal kv.2 rest
    | none => false
  | Json.null, _ :: _ => false
  | _, _ :: _ => true

/-- A traversed value strictly before the final segment is explicitly null:
the walk passes through mappings with non-null entries until some mapping's
entry for the segment is null while segments remain; returns those remaining
segments. -/
def nullBeforeEnd : Json → List String → Option (List String)
  | Json.obj kvs, k :: rest =>
    match kvs.find? (fun kv => kv.1 = k) with
    | some kv =>
      if kv.2.isNull then (if rest.isEmpty then none else some rest)
      else nullBeforeEnd kv.2 rest
    | none => none
  | _, _ => none

/-- `{"ambariLevelParams": {"java_version": "8"}}`. -/
def docJava8 : Json :=
  Json.obj [("ambariLevelParams", Json.obj [("java_version", Json.str "8")])]

/-- `{"ambariLevelParams": {"java_version": "abc"}}`. -/
def docJavaBad : Json :=
  Json.obj [("ambariLevelParams", Json.obj [("java_version", Json.str "abc")])]

/-- `{"agentConfigParams": {"agent": {"parallel_execution": "abc"}}}`. -/
def docParallelBad : Json :=
  Json.obj [("agentConfigParams",
    Json.obj [("agent", Json.obj [("parallel_execution", Json.str "abc")])])]

/-- `{"ambariLevelParams": {"agent_stack_retry_count": "abc"}}`. -/
def docRetryBad : Json :=
  Json.obj [("ambariLevelParams",
    Json.obj [("agent_stack_retry_count", Json.str "abc")])]

/-- `{"clusterHostInfo": {"oozie_server": ["h1"]}}`. -/
def docOozie : Json :=
  Json.obj [("clusterHostInfo",
    Json.obj [("oozie_server", Json.arr [Json.str "h1"])])]

/-- `{"clusterHostInfo": {"zookeeper_server_hosts": ["h2"]}}`. -/
def docZk : Json :=
  Json.obj [("clusterHostInfo",
    Json.obj [("zookeeper_server_hosts", Json.arr [Json.str "h2"])])]

/-- `{"a": null}`: a document with an explicitly null value mid-path. -/
def docNullMid : Json := Json.obj [("a", Json.null)]

/-- `{"b": 42}`: a mapping default that the continued traversal descends into. -/
def defaultMap : Json := Json.obj [("b", Json.num 42)]

/-- The accessor built from the empty document. -/
def emptyCmd : ExecutionCommand := ExecutionCommand.init (Json.obj [])

/-- All the zero-argument getters of `ExecutionCommand` that return a plain
document value, in state-passing form. -/
def allGetters : List (ExecutionCommand → Json × ExecutionCommand) :=
  [ExecutionCommand.get_module_name,
   ExecutionCommand.get_component_type,
   ExecutionCommand.get_component_instance_name,
   ExecutionCommand.get_servicegroup_name,
   ExecutionCommand.get_cluster_name,
   ExecutionCommand.get_repository_file,
   ExecutionCommand.get_local_components,
   ExecutionCommand.get_jdk_location,
   ExecutionCommand.get_jdk_name,
   ExecutionCommand.get_java_home,
   ExecutionCommand.get_jce_name,
   ExecutionCommand.get_db_driver_file_name,
   ExecutionCommand.get_db_name,
   ExecutionCommand.get_oracle_jdbc_url,
   ExecutionCommand.get_mysql_jdbc_url,
   ExecutionCommand.check_agent_stack_want_retry_on_unavailability,
   ExecutionCommand.get_ambari_server_host,
   ExecutionCommand.get_ambari_server_port,
   ExecutionCommand.is_ambari_server_use_ssl,
   ExecutionCommand.is_host_system_prepared,
   ExecutionCommand.is_gpl_license_accepted,
   ExecutionCommand.get_mpack_name,
   ExecutionCommand.get_mpack_version,
   ExecutionCommand.get_user_groups,
   ExecutionCommand.get_group_list,
   ExecutionCommand.get_user_list,
   ExecutionCommand.get_host_name,
   ExecutionCommand.get_agent_cache_dir,
   ExecutionCommand.get_repo_info,
   ExecutionCommand.get_service_repo_info,
   ExecutionCommand.check_unlimited_key_jce_required,
   ExecutionCommand.get_new_mpack_version_for_upgrade,
   ExecutionCommand.check_command_retry_enabled,
   ExecutionCommand.check_upgrade_direction,
   ExecutionCommand.get_upgrade_type,
   ExecutionCommand.is_rolling_restart_in_upgrade,
   ExecutionCommand.is_update_files_only,
   ExecutionCommand.get_deploy_phase,
   ExecutionCommand.get_dfs_type,
   ExecutionCommand.get_module_package_folder,
   ExecutionCommand.get_ambari_java_home,
   ExecutionCommand.get_ambari_java_name,
   ExecutionCommand.get_ambari_jce_name,
   ExecutionCommand.get_ambari_jdk_name,
   ExecutionCommand.need_refresh_topology,
   ExecutionCommand.check_only_update_files,
   ExecutionCommand.get_desired_namenode_role,
   ExecutionCommand.is_upgrade_suspended,
   ExecutionCommand.get_all_hosts,
   ExecutionCommand.get_all_racks,
   ExecutionCommand.get_all_ipv4_ips]

/-- The zero-argument getters whose result carries an explicit error
component (the `expect_v2`-based integer getters). -/
def exceptGetters : List (ExecutionCommand → Except Unit Json × ExecutionCommand) :=
  [ExecutionCommand.get_java_version,
   ExecutionCommand.get_agent_stack_retry_count]

example : splitKey "a/b" = ["a", "b"] := rfl
example : splitKey "" = [] := rfl
example : splitKey "///" = [] := rfl
example : splitKey "/a//b/" = ["a", "b"] := rfl
example :
    lookupValue (Json.obj [("a", Json.obj [("b", Json.num 3)])]) "a/b" Json.null =
      Json.num 3 := rfl
example :
    lookupValue (Json.obj [("a", Json.num 5)]) "a/b" (Json.num 7) = Json.num 7 := rfl
example :
    lookupValue (Json.obj [("a", Json.null)]) "a/b" (Json.obj [("b", Json.num 42)]) =
      Json.num 42 := rfl

/-! ### Helper lemmas about the traversal -/

theorem any_eq_isSome_findP {α : Type} (p : α → Bool) (l : List α) :
    l.any p = (l.find? p).isSome := by
  induction l with
  | nil => rfl
  | cons x xs ih =>
    cases h : p x <;> simp [List.any_cons, List.find?, h, ih]

theorem Json.isNull_eq_true {v : Json} (h : v.isNull = true) : v = Json.null := by
  cases v <;> simp_all [Json.isNull]

/-- Step lemma: looking one segment up in a mapping that contains it moves to
the entry's value, with the default substituted when that value is null. -/
theorem getValueLoop_found (dv : Json) (kvs : List (String × Json)) (k : String)
    (rest : List String) (kv : String × Json)
    (hf : kvs.find? (fun kv => kv.1 = k) = some kv) :
    getValueLoop dv (Json.obj kvs) (k :: rest) =
      getValueLoop dv (if kv.2.isNull then dv else kv.2) rest := by
  have hmem : kvs.any (fun kv => kv.1 = k) = true := by
    rw [any_eq_isSome_findP, hf, Option.isSome_some]
  simp [getValueLoop, isMember, indexJson, hf, hmem]

/-- Step lemma: looking one segment up in a mapping that does not contain it
returns the default immediately. -/
theorem getValueLoop_missing (dv : Json) (kvs : List (String × Json)) (k : String)
    (rest : List String)
    (hf : kvs.find? (fun kv => kv.1 = k) = none) :
    getValueLoop dv (Json.obj kvs) (k :: rest) = Except.ok dv := by
  have hmem : kvs.any (fun kv => kv.1 = k) = false := by
    rw [any_eq_isSome_findP, hf]
    rfl
  simp [getValueLoop, isMember, hmem]

/-- On a strictly absent path the caught loop yields the default. -/
theorem catch_loop_absent : ∀ (segs : List String) (d v : Json),
    absentIn d segs = true → catchDefault (getValueLoop v d segs) v = v := by
  intro segs
  induction segs with
  | nil =>
    intro d v h
    simp [absentIn] at h
  | cons k rest ih =>
    intro d v h
    cases d with
    | obj kvs =>
      cases hf : kvs.find? (fun kv => kv.1 = k) with
      | some kv =>
        simp only [absentIn, hf] at h
        rw [getValueLoop_found v kvs k rest kv hf]
        have hkvnull : kv.2.isNull = false := by
          cases hn : kv.2.isNull
          · rfl
          · rw [Json.isNull_eq_true hn] at h
            cases rest <;> simp [absentIn] at h
        simp only [hkvnull, Bool.false_eq_true, if_false]
        exact ih kv.2 v h
      | none =>
        rw [getValueLoop_missing v kvs k rest hf]
        rfl
    | null => simp [absentIn] at h
    | bool b => simp [absentIn] at h
    | num n => simp [absentIn] at h
    | str s => simp [absentIn] at h
    | arr xs => simp [absentIn] at h

/-- When the strict walk reaches a non-null non-mapping with segments still to
process, the caught loop yields the default. -/
theorem catch_loop_scalar : ∀ (segs : List String) (d v : Json),
    scalarMidTraversal d segs = true → catchDefault (getValueLoop v d segs) v = v := by
  intro segs
  induction segs with
  | nil =>
    intro d v h
    simp [scalarMidTraversal] at h
  | cons k rest ih =>
    intro d v h
    cases d with
    | null => simp [scalarMidTraversal] at h
    | bool b => rfl
    | num n => rfl
    | str s =>
      cases hi : isInfixB k.data s.data <;>
        simp [getValueLoop, isMember, indexJson, String.toList, hi, catchDefault]
    | arr xs =>
      cases ha : xs.any (fun x => x.strEq k) <;>
        simp [getValueLoop, isMember, indexJson, ha, catchDefault]
    | obj kvs =>
      cases hf : kvs.find? (fun kv => kv.1 = k) with
      | some kv =>
        simp only [scalarMidTraversal, hf] at h
        rw [getValueLoop_found v kvs k rest kv hf]
        have hkvnull : kv.2.isNull = false := by
          cases hn : kv.2.isNull
          · rfl
          · rw [Json.isNull_eq_true hn] at h
            cases rest <;> simp [scalarMidTraversal] at h
        simp only [hkvnull, Bool.false_eq_true, if_false]
        exact ih kv.2 v h
      | none => simp [scalarMidTraversal, hf] at h

/-- Continuing the traversal from a non-mapping default with at least one
segment left yields that default. -/
theorem catch_loop_self_nonobj (v : Json) (k : String) (rest : List String)
    (h : v.isObj = false) :
    catchDefault (getValueLoop v v (k :: rest)) v = v := by
  cases v with
  | null => rfl
  | bool b => rfl
  | num n => rfl
  | str s =>
    cases hi : isInfixB k.data s.data <;>
      simp [getValueLoop, isMember, indexJson, String.toList, hi, catchDefault]
  | arr xs =>
    cases ha : xs.any (fun x => x.strEq k) <;>
      simp [getValueLoop, isMember, indexJson, ha, catchDefault]
  | obj kvs => simp [Json.isObj] at h

/-- When a value traversed strictly before the final segment is null, the loop
continues from the default over the remaining segments. -/
theorem catch_loop_nullmid : ∀ (segs : List String) (d v : Json) (rest : List String),
    nullBeforeEnd d segs = some rest →
    catchDefault (getValueLoop v d segs) v = catchDefault (getValueLoop v v rest) v := by
  intro segs
  induction segs with
  | nil =>
    intro d v rest h
    simp [nullBeforeEnd] at h
  | cons k tail ih =>
    intro d v rest h
    cases d with
    | obj kvs =>
      cases hf : kvs.find? (fun kv => kv.1 = k) with
      | some kv =>
        simp only [nullBeforeEnd, hf] at h
        rw [getValueLoop_found v kvs k tail kv hf]
        cases hn : kv.2.isNull
        · simp only [hn, Bool.false_eq_true, if_false] at h ⊢
          exact ih kv.2 v rest h
        · simp only [hn, if_true] at h ⊢
          cases ht : tail.isEmpty
          · rw [ht] at h
            simp only [Bool.false_eq_true, if_false, Option.some.injEq] at h
            rw [h]
          · rw [ht] at h
            simp at h
      | none => simp [nullBeforeEnd, hf] at h
    | null => simp [nullBeforeEnd] at h
    | bool b => simp [nullBeforeEnd] at h
    | num n => simp [nullBeforeEnd] at h
    | str s => simp [nullBeforeEnd] at h
    | arr xs => simp [nullBeforeEnd] at h

theorem splitRuns_ne_nil : ∀ cs : List Char, splitRuns cs ≠ [] := by
  intro cs
  induction cs with
  | nil => simp [splitRuns]
  | cons c cs ih =>
    cases h : splitRuns cs with
    | nil => exact absurd h ih
    | cons r rs =>
      by_cases hc : c = '/' <;> simp [splitRuns, h, hc]

theorem filter_splitRuns_allslash : ∀ cs : List Char, (∀ c ∈ cs, c = '/') →
    (splitRuns cs).filter (fun r => r ≠ []) = [] := by
  intro cs
  induction cs with
  | nil =>
    intro _
    rfl
  | cons c cs ih =>
    intro h
    have hc : c = '/' := h c (List.mem_cons_self c cs)
    have ih2 := ih (fun x hx => h x (List.mem_cons_of_mem c hx))
    cases hs : splitRuns cs with
    | nil => exact absurd hs (splitRuns_ne_nil cs)
    | cons r rs =>
      rw [hs] at ih2
      simp only [splitRuns, hs, hc, if_true]
      simpa using ih2

/-- A key that is empty or consists only of `/` characters has no nonempty
segment. -/
theorem splitKey_allslash (p : String) (h : ∀ c ∈ p.toList, c = '/') :
    splitKey p = [] := by
  unfold splitKey
  rw [filter_splitRuns_allslash p.toList h]
  rfl

theorem nullBeforeEnd_some_ne_nil : ∀ (segs : List String) (d : Json) (rest : List String),
    nullBeforeEnd d segs = some rest → rest ≠ [] := by
  intro segs
  induction segs with
  | nil =>
    intro d rest h
    simp [nullBeforeEnd] at h
  | cons k tail ih =>
    intro d rest h
    cases d with
    | obj kvs =>
      cases hf : kvs.find? (fun kv => kv.1 = k) with
      | some kv =>
        simp only [nullBeforeEnd, hf] at h
        cases hn : kv.2.isNull
        · simp only [hn, Bool.false_eq_true, if_false] at h
          exact ih kv.2 rest h
        · simp only [hn, if_true] at h
          cases tail with
          | nil => simp at h
          | cons t ts =>
            simp only [List.isEmpty_cons, Bool.false_eq_true, if_false,
              Option.some.injEq] at h
            rw [← h]
            exact List.cons_ne_nil t ts
      | none => simp [nullBeforeEnd, hf] at h
    | null => simp [nullBeforeEnd] at h
    | bool b => simp [nullBeforeEnd] at h
    | num n => simp [nullBeforeEnd] at h
    | str s => simp [nullBeforeEnd] at h
    | arr xs => simp [nullBeforeEnd] at h

/-! ### The claims -/

/-- C1: for every document `d`, every slash-delimited path `p` that is absent
from `d` (some segment of `p` is not a key of the mapping reached at that
step, the walk up to there passing through mappings with non-null entries),
and every default value `v`, the generic lookup `get_value(p, v)` on an
accessor constructed from `d` returns `v`. -/
theorem claim_C1_absent_path_returns_default
    (d : Json) (p : String) (v : Json) (h : absentIn d (splitKey p) = true) :
    ((ExecutionCommand.init d).get_value p v).1 = v :=
  catch_loop_absent (splitKey p) d v h

theorem claim_C1_witness :
    absentIn (Json.obj [("a", Json.num 1)]) (splitKey "b/c") = true ∧
      ((ExecutionCommand.init (Json.obj [("a", Json.num 1)])).get_value "b/c"
        (Json.num 7)).1 = Json.num 7 :=
  ⟨rfl, claim_C1_absent_path_returns_default (Json.obj [("a", Json.num 1)]) "b/c"
    (Json.num 7) rfl⟩

/-- C2: the lookup never raises to the caller — the embedding makes the
Python exception explicit, and whenever the uncaught loop would raise
(`Except.error`), `get_value` still returns the default; in particular,
whenever a traversed intermediate node is a scalar or sequence (any non-null
non-mapping) rather than a mapping, `get_value(p, v)` returns `v` instead of
propagating a type error. -/
theorem claim_C2_lookup_never_raises :
    (∀ (d : Json) (p : String) (v : Json),
      getValueLoop v d (splitKey p) = Except.error () →
        ((ExecutionCommand.init d).get_value p v).1 = v)
    ∧ (∀ (d : Json) (p : String) (v : Json),
      scalarMidTraversal d (splitKey p) = true →
        ((ExecutionCommand.init d).get_value p v).1 = v) := by
  constructor
  · intro d p v h
    show catchDefault (getValueLoop v d (splitKey p)) v = v
    rw [h]
    rfl
  · intro d p v h
    exact catch_loop_scalar (splitKey p) d v h

theorem claim_C2_witness :
    getValueLoop (Json.num 7) (Json.num 5) (splitKey "a") = Except.error () ∧
      ((ExecutionCommand.init (Json.num 5)).get_value "a" (Json.num 7)).1 =
        Json.num 7 ∧
      scalarMidTraversal (Json.obj [("a", Json.num 5)]) (splitKey "a/b") = true ∧
      ((ExecutionCommand.init (Json.obj [("a", Json.num 5)])).get_value "a/b"
        (Json.num 7)).1 = Json.num 7 :=
  ⟨rfl, claim_C2_lookup_never_raises.1 (Json.num 5) "a" (Json.num 7) rfl,
    rfl, claim_C2_lookup_never_raises.2 (Json.obj [("a", Json.num 5)]) "a/b"
      (Json.num 7) rfl⟩

/-- C3 fails as stated: on
`{"agentConfigParams": {"agent": {"parallel_execution": "abc"}}}` the getter
`check_agent_config_execute_in_parallel` surfaces a coercion error
(`Except.error`) instead of returning its default 0, because the source
applies `int(...)` outside the lookup's exception handling. -/
theorem claim_C3_counterexample :
    ((ExecutionCommand.init docParallelBad).check_agent_config_execute_in_parallel).1 =
        Except.error () ∧
      (Except.error () : Except Unit Int) ≠ Except.ok 0 :=
  ⟨rfl, fun h => Except.noConfusion h⟩

/-- C3 amended: `get_agent_stack_retry_count` (default 5, via `expect_v2`)
returns the default when the field is present but not coercible to an
integer; `check_agent_config_execute_in_parallel`, however, applies `int(...)`
to the looked-up value outside the lookup, so a present non-coercible value
surfaces a coercion error to the caller, while an absent field yields its
default `int(0) = 0`. -/
theorem claim_C3_amended_integer_defaults :
    (∀ (d : Json) (v : Json),
      getValueOpt d (splitKey "ambariLevelParams/agent_stack_retry_count") = some v →
      pyInt v = Except.error () →
      ((ExecutionCommand.init d).get_agent_stack_retry_count).1 =
        Except.ok (Json.num 5))
    ∧ (((ExecutionCommand.init docParallelBad).check_agent_config_execute_in_parallel).1 =
        Except.error ())
    ∧ (∀ d : Json,
      absentIn d (splitKey "agentConfigParams/agent/parallel_execution") = true →
      ((ExecutionCommand.init d).check_agent_config_execute_in_parallel).1 =
        Except.ok 0) := by
  refine ⟨?_, rfl, ?_⟩
  · intro d v hv herr
    show expect_v2 d "ambariLevelParams/agent_stack_retry_count" (some 5) =
      Except.ok (Json.num 5)
    unfold expect_v2
    simp only [hv, herr]
  · intro d h
    show pyInt (lookupValue d "agentConfigParams/agent/parallel_execution"
      (Json.num 0)) = Except.ok 0
    rw [show lookupValue d "agentConfigParams/agent/parallel_execution"
        (Json.num 0) = Json.num 0 from catch_loop_absent _ d _ h]
    rfl

theorem claim_C3_amended_witness :
    ((ExecutionCommand.init docRetryBad).get_agent_stack_retry_count).1 =
        Except.ok (Json.num 5) ∧
      ((ExecutionCommand.init (Json.obj [])).check_agent_config_execute_in_parallel).1 =
        Except.ok 0 :=
  ⟨claim_C3_amended_integer_defaults.1 docRetryBad (Json.str "abc") rfl rfl,
    claim_C3_amended_integer_defaults.2.2 (Json.obj []) rfl⟩

/-- C4 fails as stated: on `{"a": null}` with path `"a/b"` and the mapping
default `{"b": 42}`, the traversal substitutes the default at the null and
then continues into it, so `get_value` returns `42`, not the default value
itself. -/
theorem claim_C4_counterexample :
    ((ExecutionCommand.init docNullMid).get_value "a/b" defaultMap).1 =
        Json.num 42 ∧
      Json.num 42 ≠ defaultMap :=
  ⟨rfl, fun h => Json.noConfusion h⟩

/-- C4 amended: when a value traversed strictly before the final segment is
explicitly null, the lookup substitutes the default `v` at that point and
continues the traversal from `v` over the remaining segments; in particular
the overall result is `v` itself whenever `v` is not a mapping. -/
theorem claim_C4_amended_null_substitution
    (d : Json) (p : String) (v : Json) (rest : List String)
    (h : nullBeforeEnd d (splitKey p) = some rest) :
    ((ExecutionCommand.init d).get_value p v).1 =
        catchDefault (getValueLoop v v rest) v
      ∧ (v.isObj = false → ((ExecutionCommand.init d).get_value p v).1 = v) := by
  have h1 : catchDefault (getValueLoop v d (splitKey p)) v =
      catchDefault (getValueLoop v v rest) v :=
    catch_loop_nullmid (splitKey p) d v rest h
  refine ⟨h1, ?_⟩
  intro hv
  have hrest : rest ≠ [] := nullBeforeEnd_some_ne_nil (splitKey p) d rest h
  cases rest with
  | nil => exact absurd rfl hrest
  | cons r rs =>
    show catchDefault (getValueLoop v d (splitKey p)) v = v
    rw [h1]
    exact catch_loop_self_nonobj v r rs hv

theorem claim_C4_amended_witness :
    ((ExecutionCommand.init docNullMid).get_value "a/b" defaultMap).1 =
        catchDefault (getValueLoop defaultMap defaultMap ["b"]) defaultMap ∧
      ((ExecutionCommand.init docNullMid).get_value "a/b" (Json.num 7)).1 =
        Json.num 7 :=
  ⟨(claim_C4_amended_null_substitution docNullMid "a/b" defaultMap ["b"] rfl).1,
    (claim_C4_amended_null_substitution docNullMid "a/b" (Json.num 7) ["b"] rfl).2 rfl⟩

/-- C5: `get_java_version` (no default) returns the integer 8 on
`{"ambariLevelParams": {"java_version": "8"}}`; and whenever the field is
present but not coercible to an integer it surfaces an error
(`Except.error`), a kind distinct from the silent defaults of the other
getters. -/
theorem claim_C5_java_version_int_coercion :
    (((ExecutionCommand.init docJava8).get_java_version).1 =
        Except.ok (Json.num 8))
    ∧ (∀ (d : Json) (v : Json),
      getValueOpt d (splitKey "ambariLevelParams/java_version") = some v →
      pyInt v = Except.error () →
      ((ExecutionCommand.init d).get_java_version).1 = Except.error ()) := by
  refine ⟨rfl, ?_⟩
  intro d v hv herr
  show expect_v2 d "ambariLevelParams/java_version" none = Except.error ()
  unfold expect_v2
  simp only [hv, herr]

theorem claim_C5_witness :
    ((ExecutionCommand.init docJavaBad).get_java_version).1 = Except.error () :=
  claim_C5_java_version_int_coercion.2 docJavaBad (Json.str "abc") rfl rfl

/-- C6: for every component name other than `"oozie_server"`,
`get_component_hosts(c)` looks up `clusterHostInfo/<c>_hosts` with default
empty list; for `"oozie_server"` it looks up the bare key
`clusterHostInfo/oozie_server`; with the two concrete documents of the spec
evaluating to `["h1"]` and `["h2"]`. -/
theorem claim_C6_component_hosts :
    (∀ (s : ExecutionCommand) (c : String), c ≠ "oozie_server" →
      s.get_component_hosts c =
        s.get_value ("clusterHostInfo/" ++ c ++ "_hosts") (Json.arr []))
    ∧ (∀ s : ExecutionCommand,
      s.get_component_hosts "oozie_server" =
        s.get_value "clusterHostInfo/oozie_server" (Json.arr []))
    ∧ ((ExecutionCommand.init docOozie).get_component_hosts "oozie_server").1 =
        Json.arr [Json.str "h1"]
    ∧ ((ExecutionCommand.init docZk).get_component_hosts "zookeeper_server").1 =
        Json.arr [Json.str "h2"] := by
  refine ⟨?_, fun s => rfl, rfl, rfl⟩
  intro s c hc
  simp [ExecutionCommand.get_component_hosts, ExecutionCommand.get_value, hc]

theorem claim_C6_witness :
    ("zookeeper_server" : String) ≠ "oozie_server" ∧
      (ExecutionCommand.init docZk).get_component_hosts "zookeeper_server" =
        (ExecutionCommand.init docZk).get_value
          "clusterHostInfo/zookeeper_server_hosts" (Json.arr []) :=
  ⟨by decide, claim_C6_component_hosts.1 (ExecutionCommand.init docZk)
    "zookeeper_server" (by decide)⟩

/-- C7: `get_node(t)` returns the value of the path `commandParams/<t>node`
with default null; in particular `get_node("active")` looks up
`commandParams/activenode` and `get_node("standby")` looks up
`commandParams/standbynode`. -/
theorem claim_C7_get_node_path :
    (∀ (s : ExecutionCommand) (t : String),
      s.get_node t = s.get_value ("commandParams/" ++ t ++ "node") Json.null)
    ∧ (∀ s : ExecutionCommand,
      s.get_node "active" = s.get_value "commandParams/activenode" Json.null)
    ∧ (∀ s : ExecutionCommand,
      s.get_node "standby" = s.get_value "commandParams/standbynode" Json.null) :=
  ⟨fun _ _ => rfl, fun _ => rfl, fun _ => rfl⟩

/-- C8: `get_component_instance_name()` returns the literal string
`"default"` on the accessor constructed from any document, the empty one
included. -/
theorem claim_C8_component_instance_name_fixed (d : Json) :
    ((ExecutionCommand.init d).get_component_instance_name).1 =
      Json.str "default" :=
  rfl

/-- C9: every getter of the accessor leaves the command document (the whole
accessor state) unchanged, and calling it twice in succession on the same
untouched state yields identical results. -/
theorem claim_C9_getters_idempotent_no_mutation :
    (∀ g ∈ allGetters, ∀ s : ExecutionCommand,
      (g s).2 = s ∧ (g ((g s).2)).1 = (g s).1)
    ∧ (∀ g ∈ exceptGetters, ∀ s : ExecutionCommand,
      (g s).2 = s ∧ (g ((g s).2)).1 = (g s).1)
    ∧ (∀ s : ExecutionCommand,
      (s.check_agent_config_execute_in_parallel).2 = s ∧
        (((s.check_agent_config_execute_in_parallel).2).check_agent_config_execute_in_parallel).1 =
          (s.check_agent_config_execute_in_parallel).1)
    ∧ (∀ s : ExecutionCommand,
      (s.get_module_configs).2 = s ∧
        (((s.get_module_configs).2).get_module_configs).1 = (s.get_module_configs).1)
    ∧ (∀ (s : ExecutionCommand) (q : String) (v : Json),
      (s.get_value q v).2 = s ∧
        (((s.get_value q v).2).get_value q v).1 = (s.get_value q v).1)
    ∧ (∀ (s : ExecutionCommand) (t : String),
      (s.get_node t).2 = s ∧ (((s.get_node t).2).get_node t).1 = (s.get_node t).1)
    ∧ (∀ (s : ExecutionCommand) (c : String),
      (s.get_component_hosts c).2 = s ∧
        (((s.get_component_hosts c).2).get_component_hosts c).1 =
          (s.get_component_hosts c).1)
    ∧ (∀ (s : ExecutionCommand) (c : String),
      (s.get_component_host c).2 = s ∧
        (((s.get_component_host c).2).get_component_host c).1 =
          (s.get_component_host c).1) := by
  refine ⟨?_, ?_, fun s => ⟨rfl, rfl⟩, fun s => ⟨rfl, rfl⟩, fun s q v => ⟨rfl, rfl⟩,
    fun s t => ⟨rfl, rfl⟩, fun s c => ⟨rfl, rfl⟩, fun s c => ⟨rfl, rfl⟩⟩
  · intro g hg
    fin_cases hg <;> exact fun s => ⟨rfl, rfl⟩
  · intro g hg
    fin_cases hg <;> exact fun s => ⟨rfl, rfl⟩

theorem claim_C9_witness :
    (ExecutionCommand.get_module_name emptyCmd).2 = emptyCmd ∧
      (ExecutionCommand.get_module_name
        ((ExecutionCommand.get_module_name emptyCmd).2)).1 =
        (ExecutionCommand.get_module_name emptyCmd).1 :=
  claim_C9_getters_idempotent_no_mutation.1 ExecutionCommand.get_module_name
    (by simp [allGetters]) emptyCmd

/-- C10: a path that is empty or consists only of `/` characters has no
nonempty segment, so `get_value(p, v)` returns the whole document, never the
default. -/
theorem claim_C10_allslash_path_returns_document
    (d : Json) (p : String) (v : Json) (h : ∀ c ∈ p.toList, c = '/') :
    ((ExecutionCommand.init d).get_value p v).1 = d := by
  show catchDefault (getValueLoop v d (splitKey p)) v = d
  rw [splitKey_allslash p h]
  rfl

theorem claim_C10_witness :
    (∀ c ∈ ("//" : String).toList, c = '/') ∧
      ((ExecutionCommand.init docNullMid).get_value "//" (Json.num 7)).1 =
        docNullMid :=
  ⟨by decide, claim_C10_allslash_path_returns_document docNullMid "//"
    (Json.num 7) (by decide)⟩
